import Mathlib

/-!
Shallow embedding of the merchant-experience-optimisation-suite feedback
pipeline (`src/test_merchant_feedback.py`, `src/chroma_setup.py`,
`src/ux_principles.py`, `src/model_clients/retry_logic.py`).

Python machine floats are modelled as rationals (`ℚ`); fallible calls to
external collaborators (model client, vector store) are modelled as
`Except PyErr` values supplied by an explicit environment record, so that
the control flow of the pipeline — which calls are guarded by which
`try/except` blocks — is reproduced exactly.
-/

namespace MerchantSuite

/-- A raised Python exception, as far as the pipeline can observe it. -/
inductive PyErr where
  | unboundLocal
  | exc (msg : String)
deriving DecidableEq, Repr

/-- Success (`Except.ok`-ness) as a proposition. -/
def exOk {ε α : Type} (x : Except ε α) : Prop := ∃ a, x = .ok a

/-! ## `ux_principles.py`: data model -/

/-- The `UXPrinciple` dataclass. -/
structure UXPrinciple where
  name : String
  description : String
  source : String
  category : String
  priority : Nat
deriving DecidableEq, Repr

/-- The `FlowType` enum (constructor names follow the Python members). -/
inductive FlowType where
  | CHECKOUT | PAYMENT | ONBOARDING | DASHBOARD | ANALYTICS | GENERAL
  | ETHICAL | VISUAL | PRICING | CONTENT | GAMIFICATION | CART
deriving DecidableEq, Repr

/-- The `.value` of each `FlowType` enum member. -/
def FlowType.value : FlowType → String
  | .CHECKOUT => "checkout"
  | .PAYMENT => "payment"
  | .ONBOARDING => "onboarding"
  | .DASHBOARD => "dashboard"
  | .ANALYTICS => "analytics"
  | .GENERAL => "general"
  | .ETHICAL => "ethical"
  | .VISUAL => "visual"
  | .PRICING => "pricing"
  | .CONTENT => "content"
  | .GAMIFICATION => "gamification"
  | .CART => "cart"
/-- Principle list stored under `FlowType.GENERAL` in `UXPrinciplesManager.__init__`. -/
def principlesGENERAL : List UXPrinciple := [
  ⟨"Aesthetic-Usability Effect", "Users often perceive aesthetically pleasing design as design that\x27s more usable", "Laws of UX", "Perception", 5⟩,
  ⟨"Choice Overload", "The tendency for people to get overwhelmed when presented with too many options", "Laws of UX", "Decision Making", 5⟩,
  ⟨"Chunking", "Breaking down information into meaningful groups to improve comprehension", "Laws of UX", "Information Architecture", 5⟩,
  ⟨"Cognitive Load", "Minimize the mental resources needed to understand and interact with an interface", "Laws of UX", "Performance", 5⟩,
  ⟨"Doherty Threshold", "Maintain system response times under 400ms for optimal productivity", "Laws of UX", "Performance", 5⟩,
  ⟨"Fitts\x27s Law", "Make interactive elements large enough and close enough to be easily acquired", "Laws of UX", "Interaction Design", 5⟩,
  ⟨"Hick\x27s Law", "Reduce the number and complexity of choices to speed up decision making", "Laws of UX", "Decision Making", 5⟩,
  ⟨"Jakob\x27s Law", "Follow established design patterns that users are familiar with", "Laws of UX", "Consistency", 5⟩,
  ⟨"Law of Common Region", "Group related elements within clearly defined boundaries", "Laws of UX", "Visual Design", 4⟩,
  ⟨"Law of Proximity", "Place related elements close to each other", "Laws of UX", "Visual Design", 4⟩,
  ⟨"Law of Prägnanz", "Use simple, clear visual forms that require minimal cognitive effort", "Laws of UX", "Visual Design", 4⟩,
  ⟨"Law of Similarity", "Use consistent visual styles for related elements", "Laws of UX", "Visual Design", 4⟩,
  ⟨"Miller\x27s Law", "Limit the number of items in working memory to 7±2", "Laws of UX", "Information Architecture", 5⟩,
  ⟨"Occam\x27s Razor", "Choose the simplest solution that works", "Laws of UX", "Design Philosophy", 5⟩,
  ⟨"Paradox of the Active User", "Design for immediate use without requiring extensive learning", "Laws of UX", "Usability", 5⟩,
  ⟨"Peak-End Rule", "Focus on creating positive peak and ending experiences", "Laws of UX", "User Experience", 5⟩,
  ⟨"Postel\x27s Law", "Be flexible with input but strict with output", "Laws of UX", "Error Handling", 4⟩,
  ⟨"Serial Position Effect", "Place important information at the beginning and end of lists", "Laws of UX", "Information Architecture", 4⟩,
  ⟨"Tesler\x27s Law", "Some complexity is inherent and cannot be eliminated", "Laws of UX", "Design Philosophy", 4⟩,
  ⟨"Von Restorff Effect", "Make important elements visually distinct", "Laws of UX", "Visual Design", 4⟩,
  ⟨"Zeigarnik Effect", "Show progress for incomplete tasks to improve recall", "Laws of UX", "Task Management", 4⟩
]

/-- Principle list stored under `FlowType.CHECKOUT` in `UXPrinciplesManager.__init__`. -/
def principlesCHECKOUT : List UXPrinciple := [
  ⟨"One-Click Checkout", "Enable quick purchase completion with pre-filled information", "Stripe", "Efficiency", 5⟩,
  ⟨"Progress Indicators", "Show clear progress through checkout steps with visual indicators", "Stripe", "Navigation", 5⟩,
  ⟨"Early Fee Disclosure", "Display all costs (taxes, fees, shipping) at the beginning of checkout", "Stripe", "Transparency", 5⟩,
  ⟨"Smart Form Filling", "Support autofill and address validation to minimize input errors", "Stripe", "Efficiency", 4⟩,
  ⟨"Guest Checkout", "Allow purchase completion without account creation", "Stripe", "Accessibility", 5⟩,
  ⟨"Mobile Optimization", "Ensure fully responsive and touch-friendly checkout interface", "Stripe", "Responsiveness", 5⟩,
  ⟨"Minimal Distractions", "Remove unnecessary elements during checkout to maintain focus", "Stripe", "Focus", 4⟩,
  ⟨"Brand Consistency", "Maintain brand identity throughout checkout for trust", "Stripe", "Trust", 4⟩,
  ⟨"Multiple Payment Options", "Support various payment methods including local options", "Stripe", "Flexibility", 5⟩,
  ⟨"Security Indicators", "Display trust badges and security certifications prominently", "Stripe", "Trust", 5⟩,
  ⟨"Error Prevention", "Implement real-time validation and clear error messages", "Stripe", "Error Handling", 4⟩,
  ⟨"Address Validation", "Verify and correct addresses in real-time", "Stripe", "Data Quality", 4⟩,
  ⟨"Order Summary", "Show clear itemized breakdown of costs and items", "Stripe", "Transparency", 4⟩,
  ⟨"Return Policy Visibility", "Make return policies easily accessible during checkout", "Stripe", "Trust", 3⟩,
  ⟨"Save for Later", "Allow customers to save cart for future purchase", "Stripe", "Flexibility", 3⟩
]

/-- Principle list stored under `FlowType.PAYMENT` in `UXPrinciplesManager.__init__`. -/
def principlesPAYMENT : List UXPrinciple := [
  ⟨"Multiple Payment Options", "Offer various payment methods including UPI, cards, net banking", "Stripe", "Flexibility", 5⟩,
  ⟨"Secure Payment Indicators", "Clearly display security badges and trust indicators", "Stripe", "Trust", 5⟩,
  ⟨"Save Payment Information", "Allow users to save payment methods for future use", "Stripe", "Convenience", 4⟩,
  ⟨"Error Prevention", "Implement validation and clear error messages", "Don\x27t Make Me Think", "Error Handling", 4⟩
]

/-- Principle list stored under `FlowType.ONBOARDING` in `UXPrinciplesManager.__init__`. -/
def principlesONBOARDING : List UXPrinciple := [
  ⟨"Progressive Disclosure", "Show information gradually as needed", "Don\x27t Make Me Think", "Information Architecture", 4⟩,
  ⟨"Clear Value Proposition", "Communicate benefits clearly to small businesses", "Meesho Tech", "Communication", 5⟩,
  ⟨"Visual Guidance", "Use visual cues for tier 3/4 market users", "Meesho Tech", "Accessibility", 4⟩,
  ⟨"Localized Content", "Use language and examples relevant to local context", "Meesho Tech", "Localization", 5⟩
]

/-- Principle list stored under `FlowType.DASHBOARD` in `UXPrinciplesManager.__init__`. -/
def principlesDASHBOARD : List UXPrinciple := [
  ⟨"Information Hierarchy", "Organize information by importance and frequency of use", "Don\x27t Make Me Think", "Layout", 5⟩,
  ⟨"Action-Oriented Design", "Make common actions easily accessible", "GO-JEK", "Navigation", 4⟩,
  ⟨"Real-time Updates", "Show live data and updates", "GO-JEK", "Performance", 4⟩,
  ⟨"Customizable Views", "Allow users to customize their dashboard", "GO-JEK", "Personalization", 3⟩
]

/-- Principle list stored under `FlowType.ANALYTICS` in `UXPrinciplesManager.__init__`. -/
def principlesANALYTICS : List UXPrinciple := [
  ⟨"Data Visualization", "Use appropriate charts and graphs for data presentation", "GO-JEK", "Visualization", 5⟩,
  ⟨"Actionable Insights", "Provide clear, actionable insights from data", "GO-JEK", "Value", 5⟩,
  ⟨"Export Options", "Allow easy export of data in multiple formats", "GO-JEK", "Functionality", 4⟩,
  ⟨"Performance Metrics", "Show key performance indicators prominently", "GO-JEK", "Metrics", 4⟩
]

/-- Principle list stored under `FlowType.ETHICAL` in `UXPrinciplesManager.__init__`. -/
def principlesETHICAL : List UXPrinciple := [
  ⟨"Transparent Pricing", "Clearly display all costs, fees, and charges without hidden terms", "D91 Labs", "Transparency", 5⟩,
  ⟨"No Forced Actions", "Avoid requiring unnecessary actions or permissions to proceed", "D91 Labs", "User Control", 5⟩,
  ⟨"Clear Interface", "Maintain interface clarity without misleading elements or hidden options", "D91 Labs", "Interface Design", 5⟩,
  ⟨"Minimal Nagging", "Limit notifications and prompts to essential communications", "D91 Labs", "Communication", 4⟩,
  ⟨"Unobstructed Flow", "Ensure users can complete tasks without artificial barriers", "D91 Labs", "User Flow", 5⟩,
  ⟨"No Sneaky Practices", "Avoid hidden costs, auto-renewals, or bundled products without clear disclosure", "D91 Labs", "Transparency", 5⟩,
  ⟨"Genuine Social Proof", "Use authentic user reviews and testimonials without manipulation", "D91 Labs", "Trust", 4⟩,
  ⟨"No False Urgency", "Avoid creating artificial time pressure or scarcity", "D91 Labs", "User Control", 5⟩,
  ⟨"Clear Terms", "Present terms and conditions in clear, understandable language", "D91 Labs", "Transparency", 4⟩,
  ⟨"Opt-In Defaults", "Set default options to the safest choice for users", "D91 Labs", "User Control", 5⟩,
  ⟨"Easy Cancellation", "Make it as easy to cancel as it is to subscribe", "D91 Labs", "User Control", 5⟩,
  ⟨"No Dark Patterns", "Avoid any design elements that manipulate user behavior", "D91 Labs", "Ethics", 5⟩,
  ⟨"Accessible Information", "Ensure all important information is easily accessible and readable", "D91 Labs", "Transparency", 4⟩,
  ⟨"Consistent Messaging", "Maintain consistent communication without misleading claims", "D91 Labs", "Communication", 4⟩,
  ⟨"User-Centric Defaults", "Set default options that benefit the user, not the business", "D91 Labs", "Ethics", 5⟩
]

/-- Principle list stored under `FlowType.VISUAL` in `UXPrinciplesManager.__init__`. -/
def principlesVISUAL : List UXPrinciple := [
  ⟨"High Visibility Filters", "Use visual elements instead of text for filtering options", "Meesho Tech", "Navigation", 5⟩,
  ⟨"Visual Hierarchy", "Place most important filters in first two positions", "Meesho Tech", "Layout", 5⟩,
  ⟨"Scroll Indicator", "Use partial button to indicate more options available", "Meesho Tech", "Navigation", 4⟩,
  ⟨"Icon-Based Navigation", "Use clear, intuitive icons that work without text", "Meesho Tech", "Visual Design", 5⟩,
  ⟨"Category Visualization", "Use appropriate images for each category filter", "Meesho Tech", "Visual Design", 4⟩,
  ⟨"Dynamic Filtering", "Show relevant filters based on user behavior", "Meesho Tech", "Personalization", 5⟩,
  ⟨"Filter Performance", "Rank and fix filters based on their performance", "Meesho Tech", "Optimization", 4⟩,
  ⟨"Visual Consistency", "Maintain consistent visual style across filters", "Meesho Tech", "Visual Design", 4⟩,
  ⟨"Screen Real Estate", "Optimize use of screen space for maximum impact", "Meesho Tech", "Layout", 5⟩,
  ⟨"Progressive Disclosure", "Show additional options through scrolling", "Meesho Tech", "Navigation", 4⟩,
  ⟨"Visual Feedback", "Provide clear visual feedback for user actions", "Meesho Tech", "Interaction", 5⟩,
  ⟨"Cultural Relevance", "Use visuals that resonate with local market", "Meesho Tech", "Localization", 5⟩,
  ⟨"Minimal Text", "Reduce reliance on text-based instructions", "Meesho Tech", "Accessibility", 5⟩,
  ⟨"Visual Affordances", "Make interactive elements visually obvious", "Meesho Tech", "Interaction", 4⟩,
  ⟨"Color and Contrast", "Use high contrast and culturally appropriate colors", "Meesho Tech", "Visual Design", 4⟩
]

/-- Principle list stored under `FlowType.PRICING` in `UXPrinciplesManager.__init__`. -/
def principlesPRICING : List UXPrinciple := [
  ⟨"Early Fee Disclosure", "Display nonstandard fees and special charges on product pages", "Nielsen Norman Group", "Transparency", 5⟩,
  ⟨"Total Cost Visibility", "Show complete cost including all fees before checkout", "Nielsen Norman Group", "Transparency", 5⟩,
  ⟨"Shipping Cost Calculator", "Allow users to calculate shipping costs on product pages", "Nielsen Norman Group", "Functionality", 5⟩,
  ⟨"Fee Explanation", "Clearly explain the purpose of each fee", "Nielsen Norman Group", "Transparency", 4⟩,
  ⟨"Prominent Fee Display", "Place fee information near the product price", "Nielsen Norman Group", "Layout", 5⟩,
  ⟨"Progressive Disclosure", "Show basic fees upfront, detailed breakdowns on demand", "Nielsen Norman Group", "Information Architecture", 4⟩,
  ⟨"International Shipping Clarity", "Clearly indicate international shipping costs and restrictions", "Nielsen Norman Group", "Transparency", 5⟩,
  ⟨"Special Delivery Notice", "Highlight special delivery requirements and costs", "Nielsen Norman Group", "Transparency", 4⟩,
  ⟨"Fee Consistency", "Maintain consistent fee terminology across the site", "Nielsen Norman Group", "Consistency", 4⟩,
  ⟨"Tax Estimation", "Provide tax estimates based on location", "Nielsen Norman Group", "Functionality", 4⟩,
  ⟨"Bulk Pricing Clarity", "Clearly show pricing for bulk or oversized items", "Nielsen Norman Group", "Transparency", 4⟩,
  ⟨"Service Fee Transparency", "Explain service fees and their purpose", "Nielsen Norman Group", "Transparency", 5⟩,
  ⟨"Installation Cost Clarity", "Show installation costs for applicable items", "Nielsen Norman Group", "Transparency", 4⟩,
  ⟨"Fee Breakdown", "Provide detailed breakdown of all costs", "Nielsen Norman Group", "Transparency", 4⟩,
  ⟨"No Hidden Costs", "Avoid revealing significant costs only at checkout", "Nielsen Norman Group", "Ethics", 5⟩
]

/-- Principle list stored under `FlowType.CONTENT` in `UXPrinciplesManager.__init__`. -/
def principlesCONTENT : List UXPrinciple := [
  ⟨"Clear Language", "Use simple, straightforward language that users can easily understand", "FinTech UX Writing", "Clarity", 5⟩,
  ⟨"Concise Communication", "Be direct and to the point, avoiding unnecessary complexity", "FinTech UX Writing", "Clarity", 5⟩,
  ⟨"Consistent Terminology", "Maintain consistent terms and phrases throughout the interface", "FinTech UX Writing", "Consistency", 5⟩,
  ⟨"Jargon-Free Content", "Avoid financial jargon and technical terms unless necessary", "FinTech UX Writing", "Accessibility", 5⟩,
  ⟨"Progressive Disclosure", "Reveal complex information gradually as needed", "FinTech UX Writing", "Information Architecture", 4⟩,
  ⟨"Error Prevention", "Provide clear instructions and warnings to prevent user errors", "FinTech UX Writing", "Error Handling", 5⟩,
  ⟨"Action-Oriented Text", "Use verbs and active voice to guide user actions", "FinTech UX Writing", "Interaction", 4⟩,
  ⟨"Contextual Help", "Provide relevant help text exactly when users need it", "FinTech UX Writing", "Support", 4⟩,
  ⟨"Brand Voice", "Maintain consistent brand voice and tone across all content", "FinTech UX Writing", "Branding", 4⟩,
  ⟨"Accessible Content", "Ensure content is readable by screen readers and assistive technologies", "FinTech UX Writing", "Accessibility", 5⟩,
  ⟨"Legal Compliance", "Ensure all content meets regulatory and legal requirements", "FinTech UX Writing", "Compliance", 5⟩,
  ⟨"User-Centric Language", "Focus on user benefits and outcomes rather than features", "FinTech UX Writing", "User Focus", 4⟩,
  ⟨"Clear Error Messages", "Provide specific, actionable error messages with solutions", "FinTech UX Writing", "Error Handling", 5⟩,
  ⟨"Progressive Complexity", "Start with simple concepts and gradually introduce complexity", "FinTech UX Writing", "Learning", 4⟩,
  ⟨"Trust-Building Content", "Use language that builds trust and confidence", "FinTech UX Writing", "Trust", 5⟩
]

/-- Principle list stored under `FlowType.GAMIFICATION` in `UXPrinciplesManager.__init__`. -/
def principlesGAMIFICATION : List UXPrinciple := [
  ⟨"Reward System", "Implement points, badges, and rewards for financial achievements", "FinTech Gamification", "Engagement", 5⟩,
  ⟨"Progress Visualization", "Use progress bars and visual indicators to show financial goal progress", "FinTech Gamification", "Feedback", 5⟩,
  ⟨"Financial Challenges", "Create engaging challenges and goals for saving and investing", "FinTech Gamification", "Motivation", 5⟩,
  ⟨"Educational Gamification", "Use interactive quizzes and exercises to teach financial concepts", "FinTech Gamification", "Learning", 5⟩,
  ⟨"Social Competition", "Implement leaderboards and social sharing for financial achievements", "FinTech Gamification", "Community", 4⟩,
  ⟨"Personalized Goals", "Allow users to set and track personalized financial goals", "FinTech Gamification", "Personalization", 5⟩,
  ⟨"Instant Feedback", "Provide immediate feedback for financial actions and achievements", "FinTech Gamification", "Feedback", 5⟩,
  ⟨"Tiered Rewards", "Implement progressive reward levels based on user engagement", "FinTech Gamification", "Engagement", 4⟩,
  ⟨"Visual Progress", "Use visual representations (like city building) for financial progress", "FinTech Gamification", "Visualization", 4⟩,
  ⟨"Daily Challenges", "Offer daily financial tasks and challenges to maintain engagement", "FinTech Gamification", "Engagement", 4⟩,
  ⟨"Achievement Unlocking", "Design progressive achievement system for financial milestones", "FinTech Gamification", "Motivation", 4⟩,
  ⟨"Community Features", "Enable social interaction and community challenges", "FinTech Gamification", "Community", 4⟩,
  ⟨"Reward Store", "Create a marketplace for redeeming earned points and rewards", "FinTech Gamification", "Engagement", 4⟩,
  ⟨"Financial Literacy Games", "Develop interactive games for learning financial concepts", "FinTech Gamification", "Learning", 4⟩,
  ⟨"Savings Challenges", "Implement competitive savings challenges with rewards", "FinTech Gamification", "Motivation", 5⟩
]

/-- Principle list stored under `FlowType.CART` in `UXPrinciplesManager.__init__`. -/
def principlesCART : List UXPrinciple := [
  ⟨"Progressive Profiling", "Collect customer information gradually over multiple visits", "E-commerce Best Practices", "Data Collection", 5⟩,
  ⟨"One-Page Checkout", "Consolidate checkout process into a single page", "E-commerce Best Practices", "Efficiency", 5⟩,
  ⟨"One-Click Checkout", "Enable instant checkout for returning customers", "E-commerce Best Practices", "Efficiency", 5⟩,
  ⟨"Cost Transparency", "Display all costs and fees upfront", "E-commerce Best Practices", "Trust", 5⟩,
  ⟨"Mobile Optimization", "Optimize checkout for mobile devices with clear CTAs", "E-commerce Best Practices", "Accessibility", 5⟩,
  ⟨"Guest Checkout", "Allow purchases without account creation", "E-commerce Best Practices", "Accessibility", 5⟩,
  ⟨"Trust Signals", "Display security badges and payment method icons", "E-commerce Best Practices", "Trust", 5⟩,
  ⟨"Payment Options", "Offer multiple payment methods including digital wallets", "E-commerce Best Practices", "Flexibility", 5⟩,
  ⟨"Cross-Channel Consistency", "Maintain consistent checkout experience across all channels", "E-commerce Best Practices", "Consistency", 4⟩,
  ⟨"Checkout Analytics", "Track and analyze checkout metrics for optimization", "E-commerce Best Practices", "Analytics", 4⟩,
  ⟨"Fraud Prevention", "Implement robust fraud detection without hindering legitimate purchases", "E-commerce Best Practices", "Security", 5⟩,
  ⟨"Omnichannel Checkout", "Enable checkout on all customer touchpoints", "E-commerce Best Practices", "Accessibility", 4⟩,
  ⟨"Cart Recovery", "Implement automated cart recovery emails with incentives", "E-commerce Best Practices", "Retention", 4⟩,
  ⟨"Personalized Recommendations", "Show relevant product recommendations during checkout", "E-commerce Best Practices", "Personalization", 4⟩,
  ⟨"Post-Purchase Engagement", "Maintain engagement after purchase with updates and reviews", "E-commerce Best Practices", "Retention", 4⟩,
  ⟨"Loyalty Integration", "Integrate loyalty programs into checkout process", "E-commerce Best Practices", "Retention", 4⟩
]

/-- The `self.principles` dict: every flow type has an entry. -/
def principlesDict : FlowType → List UXPrinciple
  | .GENERAL => principlesGENERAL
  | .CHECKOUT => principlesCHECKOUT
  | .PAYMENT => principlesPAYMENT
  | .ONBOARDING => principlesONBOARDING
  | .DASHBOARD => principlesDASHBOARD
  | .ANALYTICS => principlesANALYTICS
  | .ETHICAL => principlesETHICAL
  | .VISUAL => principlesVISUAL
  | .PRICING => principlesPRICING
  | .CONTENT => principlesCONTENT
  | .GAMIFICATION => principlesGAMIFICATION
  | .CART => principlesCART

/-- Model of `UXPrinciplesManager.get_principles_for_flow`: the flow's own list
(`self.principles.get(flow_type, [])`; every flow type has an entry, so the
default is never taken) concatenated with the seven universal categories. -/
def get_principles_for_flow (flow_type : FlowType) : List UXPrinciple :=
  principlesDict flow_type ++ principlesDict .GENERAL ++ principlesDict .ETHICAL ++
  principlesDict .VISUAL ++ principlesDict .PRICING ++ principlesDict .CONTENT ++
  principlesDict .GAMIFICATION ++ principlesDict .CART

/-! ## Persona registry of `test_merchant_feedback.py` -/

/-- One entry of the module-level `personas` dict. -/
structure Persona where
  name : String
  description : String
  characteristics : String
deriving DecidableEq, Repr
/-- The module-level `personas` registry of `test_merchant_feedback.py`. -/
def personas : List (String × Persona) := [
  ("internet_first_entrepreneur",
   ⟨"Internet First Entrepreneur",
    "A data-driven, innovative entrepreneur with a strong focus on user experience and strategic growth, blending agility with methodical decision-making.",
    "\n        - Values long-term partnerships and embraces the latest technological advancements\n        - Prioritizes user experience, continuous innovation, and data intelligence for decision-making\n        - Methodical yet agile, open to experimentation and creative problem-solving\n        - Focused on quality, data accuracy, and sustained market leadership\n        - Manages complex sales funnels and payment flows with strategic precision\n        - Balances resource constraints with a strong emphasis on brand identity and market reach\n        - Tracks performance metrics closely and seeks self-serve capabilities\n        - Analytical, design-savvy, adaptable, and user-centric\n        - Represents the upper SME to MM premium segment\n        "⟩),
  ("hybrid_emerging_business",
   ⟨"Hybrid Emerging Business",
    "A resourceful, founder-driven business transitioning from traditional to digital with a cautious yet enterprising mindset.",
    "\n        - Balances traditional business values with a willingness to adopt digital tools\n        - Operates with limited resources and a trial-and-error approach to growth\n        - Prefers familiar business metrics like GMV and RTO but open to learning new ones\n        - Seeks easy-to-use, affordable digital solutions and DIY-friendly onboarding\n        - Values proactive customer support and guidance, including social media advice\n        - Price-sensitive and focused on customer acquisition and scaling challenges\n        - Limited tech savviness but motivated to automate and streamline operations\n        - Enterprising, cautious, and resourceful\n        - Represents the emerging business segment\n        "⟩)
]
/-- Python `persona_name in personas` / `personas[persona_name]`:
lookup in the registry (an association list keyed by persona id). -/
def lookupPersona (persona_name : String) : Option Persona :=
  personas.lookup persona_name

/-! ## Python numeric parsing (`float(...)`) -/

/-- Value of a digit string (most significant first). -/
def digitsVal (l : List Char) : Nat :=
  l.foldl (fun a c => 10 * a + (c.toNat - 48)) 0

/-- Parse an optional exponent suffix (`e`/`E`, optional sign, digits) that
must consume the entire remaining input. `[]` means "no exponent". -/
def parseExp : List Char → Option ℚ
  | [] => some 1
  | c :: r =>
    if c = 'e' ∨ c = 'E' then
      let (sgn, r2) : ℤ × List Char :=
        match r with
        | '+' :: t => (1, t)
        | '-' :: t => (-1, t)
        | t => (1, t)
      let ds := r2.takeWhile Char.isDigit
      let rest := r2.dropWhile Char.isDigit
      if ds.isEmpty ∨ ¬ rest.isEmpty then none
      else some ((10 : ℚ) ^ (sgn * (digitsVal ds : ℤ)))
    else none

/-- Model of Python `float(s)` on finite decimal literals: optional sign,
integer and/or fractional digits, optional exponent. (Python additionally
accepts `inf`/`nan` spellings and digit-group underscores; those inputs are
outside this model — no claim in scope depends on them, and the clamp in
`calculate_usability_score` keeps even those within `[1, 5]` in Python.) -/
def pyFloat (s : String) : Option ℚ :=
  let cs := s.toList
  let (sgn, cs1) : ℚ × List Char :=
    match cs with
    | '+' :: r => (1, r)
    | '-' :: r => (-1, r)
    | r => (1, r)
  let intPart := cs1.takeWhile Char.isDigit
  let rest := cs1.dropWhile Char.isDigit
  match rest with
  | '.' :: r2 =>
    let fracPart := r2.takeWhile Char.isDigit
    let rest2 := r2.dropWhile Char.isDigit
    if intPart.isEmpty ∧ fracPart.isEmpty then none
    else
      (parseExp rest2).map fun e =>
        sgn * ((digitsVal intPart : ℚ) +
          (digitsVal fracPart : ℚ) / (10 : ℚ) ^ fracPart.length) * e
  | rest2 =>
    if intPart.isEmpty then none
    else (parseExp rest2).map fun e => sgn * (digitsVal intPart : ℚ) * e

/-- Python `str.strip()` (whitespace trim). -/
def pyStrip (s : String) : String := s.trim

/-! ## `calculate_usability_score` and `get_usability_rating` -/

/-- Core of `calculate_usability_score`: the argument is the outcome of
`create_model_client(model_name)` followed by
`client.send_request(scoring_prompt)` (the whole `try` block); any raise
there is caught and yields `3.0`, as is an unparsable reply (`ValueError`
from `float`). A parsed reply is clamped by `max(1.0, min(5.0, score))`. -/
def calculate_usability_score (clientResult : Except PyErr String) : ℚ :=
  match clientResult with
  | .error _ => 3
  | .ok score_text =>
    match pyFloat (pyStrip score_text) with
    | some score => max 1 (min 5 score)
    | none => 3

/-- Model of `get_usability_rating`: first matching threshold, top-down. -/
def get_usability_rating (score : ℚ) : String :=
  if score ≥ 4.5 then "Excellent"
  else if score ≥ 4.0 then "Very Good"
  else if score ≥ 3.5 then "Good"
  else if score ≥ 3.0 then "Fair"
  else if score ≥ 2.5 then "Poor"
  else "Very Poor"

/-- Spec-side rendering of the §4.4 rating table, as a first-matching-rule
lookup (this definition follows the spec's words, for comparison with
`get_usability_rating`, which is translated from the code). -/
def specRatingTable : List (ℚ × String) :=
  [(4.5, "Excellent"), (4.0, "Very Good"), (3.5, "Good"),
   (3.0, "Fair"), (2.5, "Poor")]

/-- First matching rule of `specRatingTable`, else "Very Poor". -/
def specFirstMatch (score : ℚ) : String :=
  ((specRatingTable.find? fun p => if p.1 ≤ score then true else false).map Prod.snd).getD
    "Very Poor"

/-- Rank of a rating string, for stating monotonicity. -/
def ratingRank : String → Nat
  | "Very Poor" => 0
  | "Poor" => 1
  | "Fair" => 2
  | "Good" => 3
  | "Very Good" => 4
  | "Excellent" => 5
  | _ => 0

/-! ## JSON (`json.loads`) -/

/-- A parsed Python JSON value (`json.loads` output); numbers as rationals. -/
inductive JValue where
  | null
  | bool (b : Bool)
  | num (q : ℚ)
  | str (s : String)
  | arr (elems : List JValue)
  | obj (fields : List (String × JValue))
deriving Repr

/-- The character `\x7b`. -/
def braceOpen : Char := Char.ofNat 123

/-- The character `\x7d`. -/
def braceClose : Char := Char.ofNat 125

/-- JSON whitespace accepted by `json.loads`. -/
def jsonWs (c : Char) : Bool :=
  c == ' ' || c == '\t' || c == '\n' || c == '\r'

/-- Drop leading JSON whitespace. -/
def skipWs (l : List Char) : List Char := l.dropWhile jsonWs

/-- Hexadecimal digit value. -/
def hexVal (c : Char) : Option Nat :=
  if '0' ≤ c ∧ c ≤ '9' then some (c.toNat - 48)
  else if 'a' ≤ c ∧ c ≤ 'f' then some (c.toNat - 87)
  else if 'A' ≤ c ∧ c ≤ 'F' then some (c.toNat - 55)
  else none

/-- Parse the body of a JSON string (opening quote already consumed),
returning the decoded characters and the rest of the input. -/
def parseJString : List Char → Option (List Char × List Char)
  | [] => none
  | '"' :: r => some ([], r)
  | '\\' :: 'u' :: h1 :: h2 :: h3 :: h4 :: t =>
    match hexVal h1, hexVal h2, hexVal h3, hexVal h4 with
    | some a, some b, some c, some d =>
      (parseJString t).map fun p => (Char.ofNat (((a * 16 + b) * 16 + c) * 16 + d) :: p.1, p.2)
    | _, _, _, _ => none
  | '\\' :: e :: t =>
    let dec : Option Char :=
      if e = '"' then some '"'
      else if e = '\\' then some '\\'
      else if e = '/' then some '/'
      else if e = 'n' then some '\n'
      else if e = 't' then some '\t'
      else if e = 'r' then some '\r'
      else if e = 'b' then some (Char.ofNat 8)
      else if e = 'f' then some (Char.ofNat 12)
      else none
    match dec with
    | some c => (parseJString t).map fun p => (c :: p.1, p.2)
    | none => none
  | c :: r => (parseJString r).map fun p => (c :: p.1, p.2)

/-- Parse a JSON number at the head of the input. -/
def parseJNum (l : List Char) : Option (ℚ × List Char) :=
  let (sgn, l1) : ℚ × List Char :=
    match l with
    | '-' :: t => (-1, t)
    | t => (1, t)
  let ip := l1.takeWhile Char.isDigit
  let r1 := l1.dropWhile Char.isDigit
  if ip.isEmpty then none
  else
    let base : Option (ℚ × List Char) :=
      match r1 with
      | '.' :: t =>
        let fp := t.takeWhile Char.isDigit
        if fp.isEmpty then none
        else some ((digitsVal ip : ℚ) + (digitsVal fp : ℚ) / (10 : ℚ) ^ fp.length,
                   t.dropWhile Char.isDigit)
      | _ => some ((digitsVal ip : ℚ), r1)
    match base with
    | none => none
    | some (m, r2) =>
      match r2 with
      | c :: t =>
        if c = 'e' ∨ c = 'E' then
          let (es, t1) : ℤ × List Char :=
            match t with
            | '+' :: u => (1, u)
            | '-' :: u => (-1, u)
            | u => (1, u)
          let ed := t1.takeWhile Char.isDigit
          if ed.isEmpty then none
          else some (sgn * m * (10 : ℚ) ^ (es * (digitsVal ed : ℤ)), t1.dropWhile Char.isDigit)
        else some (sgn * m, r2)
      | [] => some (sgn * m, [])

mutual

/-- Parse one JSON value (fuel-indexed recursive-descent parser). -/
def parseJValue : Nat → List Char → Option (JValue × List Char)
  | 0, _ => none
  | fuel + 1, l =>
    match skipWs l with
    | [] => none
    | '"' :: r => (parseJString r).map fun p => (JValue.str ⟨p.1⟩, p.2)
    | '[' :: r =>
      (match skipWs r with
       | c :: r2 =>
         if c = ']' then some (JValue.arr [], r2)
         else
           match parseJElems fuel (skipWs r) with
           | some (es, rest) => some (JValue.arr es, rest)
           | none => none
       | [] => none)
    | 't' :: 'r' :: 'u' :: 'e' :: r => some (JValue.bool true, r)
    | 'f' :: 'a' :: 'l' :: 's' :: 'e' :: r => some (JValue.bool false, r)
    | 'n' :: 'u' :: 'l' :: 'l' :: r => some (JValue.null, r)
    | c :: r =>
      if c = braceOpen then
        match skipWs r with
        | c2 :: r2 =>
          if c2 = braceClose then some (JValue.obj [], r2)
          else (parseJMembers fuel (skipWs r)).map fun p => (JValue.obj p.1, p.2)
        | [] => none
      else if c = '-' ∨ c.isDigit then
        (parseJNum (c :: r)).map fun p => (JValue.num p.1, p.2)
      else none

/-- Parse the elements of a non-empty JSON array, up to the closing `]`. -/
def parseJElems : Nat → List Char → Option (List JValue × List Char)
  | 0, _ => none
  | fuel + 1, l =>
    match parseJValue fuel l with
    | none => none
    | some (v, rest) =>
      match skipWs rest with
      | ',' :: r => (parseJElems fuel r).map fun p => (v :: p.1, p.2)
      | c :: r => if c = ']' then some ([v], r) else none
      | [] => none

/-- Parse the members of a non-empty JSON object, up to the closing brace. -/
def parseJMembers : Nat → List Char → Option (List (String × JValue) × List Char)
  | 0, _ => none
  | fuel + 1, l =>
    match l with
    | '"' :: r =>
      (match parseJString r with
       | none => none
       | some (key, r1) =>
         match skipWs r1 with
         | ':' :: r2 =>
           (match parseJValue fuel r2 with
            | none => none
            | some (v, r3) =>
              match skipWs r3 with
              | ',' :: r4 =>
                (parseJMembers fuel (skipWs r4)).map fun p => ((⟨key⟩, v) :: p.1, p.2)
              | c :: r4 => if c = braceClose then some ([(⟨key⟩, v)], r4) else none
              | [] => none)
         | _ => none)
    | _ => none

end

/-- Model of `json.loads`: parse one value, then require only whitespace to
remain. (The fuel `2 * length + 4` exceeds the recursion depth any input of
this length can force.) -/
def json_loads (s : String) : Option JValue :=
  match parseJValue (2 * s.length + 4) s.toList with
  | some (v, rest) => if (skipWs rest).isEmpty then some v else none
  | none => none

/-! ## `format_feedback_summary` -/

/-- The response-cleaning prefix of `format_feedback_summary`:
`strip`, drop a leading `'```json'`, drop a trailing `'```'`, `strip`. -/
def stripFence (result : String) : String :=
  let r := result.trim
  let r := if r.startsWith "```json" then r.drop 7 else r
  let r := if r.endsWith "```" then r.dropRight 3 else r
  r.trim

/-- The fallback extraction of `format_feedback_summary`:
`start = result.find(brace-open)`, `end = result.rfind(brace-close) + 1`,
and the slice `result[start:end]` when `start >= 0 and end > start`. -/
def extractBraceSubstring (result : String) : Option String :=
  let cs := result.toList
  match cs.indexOf? braceOpen with
  | none => none
  | some start =>
    match cs.reverse.indexOf? braceClose with
    | none => none
    | some revIdx =>
      let endIdx := cs.length - revIdx
      if start < endIdx then some ⟨(cs.take endIdx).drop start⟩
      else none

/-- Model of `create_default_summary`: the structure substituted when parsing fails. -/
def create_default_summary : JValue :=
  JValue.obj [
    ("Value_Offering",
     JValue.obj [("summary", JValue.str "Error processing feedback"), ("quote", JValue.str "N/A")]),
    ("Feature_Usefulness",
     JValue.obj [("summary", JValue.str "Error processing feedback"), ("quote", JValue.str "N/A")]),
    ("Ease_of_Use",
     JValue.obj [("summary", JValue.str "Error processing feedback"), ("quote", JValue.str "N/A")]),
    ("Discoverability",
     JValue.obj [("summary", JValue.str "Error processing feedback"), ("quote", JValue.str "N/A")]),
    ("Design_Appeal",
     JValue.obj [("summary", JValue.str "Error processing feedback"), ("quote", JValue.str "N/A")])]

/-- The parsing tail of `format_feedback_summary`, applied to the model's
reply: clean, `json.loads`, and on `JSONDecodeError` extract the first
brace-open to last brace-close slice (newlines replaced), parse again, and
fall back to `create_default_summary`. -/
def parseSummaryReply (result : String) : JValue :=
  let r := stripFence result
  match json_loads r with
  | some v => v
  | none =>
    match extractBraceSubstring r with
    | some sub =>
      let cleaned_json := (sub.replace "\n" " ").replace "\r" ""
      match json_loads cleaned_json with
      | some v => v
      | none => create_default_summary
    | none => create_default_summary

/-- The keys of a parsed JSON object (empty for non-objects). -/
def objKeys : JValue → List String
  | .obj fields => fields.map Prod.fst
  | _ => []
/-- Rendering of `test_query_template.format(...)` of `test_merchant_feedback.py`, by
string concatenation of its literal segments with the substituted values. -/
def renderTestQuery (persona_name persona_description persona_characteristics
    feature_description image_context context ux_principles : String) : String :=
  "\nYou are simulating a usability test as " ++ persona_name ++ ", representing " ++ persona_description ++ "\n\nMerchant Characteristics:\n" ++ persona_characteristics ++ "\n\nFeature to Test: \"" ++ feature_description ++ "\"\n" ++ image_context ++ "\nContext: \"" ++ context ++ "\"\n\nUX Principles to Consider:\n" ++ ux_principles ++ "\n\nYour goal is to assess the feature\x27s usability and suggest improvements from your persona\x27s perspective.\nConsider these key aspects:\n\n1. Value Offering\n- How well does it address your business needs?\n- Does it align with your segment\x27s requirements (" ++ persona_name ++ ")?\n- What business value do you expect from this feature?\n\n2. Feature Usefulness\n- How practical is this feature for your business operations?\n- Does it solve your specific pain points?\n- What additional capabilities would make it more valuable?\n\n3. Ease of Use\n- How intuitive is the feature for your technical expertise level?\n- Are the workflows aligned with your business processes?\n- What aspects might be challenging for your segment?\n\n4. Discoverability\n- How easily can you find and understand the feature?\n- Is the navigation logical for your business context?\n- Are important functions clearly visible?\n\n5. Design Appeal\n- Does the design match your brand expectations?\n- Is it visually appropriate for your business segment?\n- Does it inspire confidence in using the feature?\n\nProvide specific, actionable feedback that reflects:\n- Your business segment\x27s expectations\n- Your technical comfort level\n- Your typical workflow needs\n- Your specific challenges\n- Your success metrics\n\nFormat your response as if you were speaking directly about your experience with the feature.\n"

/-- The `scoring_prompt` f-string of `calculate_usability_score`. -/
def scoringPrompt (response : String) : String :=
  "\n        Evaluate the following user test response against these core design principles:\n\n        CORE DESIGN PRINCIPLES:\n        1. User Experience & Interface\n           - Clarity and ease of understanding\n           - Consistent and predictable behavior\n           - Mobile and device responsiveness\n           - Error prevention and recovery\n\n        2. Business Value & Efficiency\n           - Task completion efficiency\n           - Integration with existing workflows\n           - Impact on business operations\n           - ROI and performance metrics\n\n        3. Merchant-Centric Features\n           - Alignment with merchant needs\n           - Learning curve and onboarding\n           - Security and trust\n           - Localization and customization\n\n        USER TEST RESPONSE:\n        " ++ response ++ "\n\n        Rate the response on a scale of 1.0 to 5.0 where:\n        1.0 = Very poor usability, major issues identified\n        2.0 = Poor usability, significant issues present\n        3.0 = Average usability, some issues noted\n        4.0 = Good usability, minor issues only\n        5.0 = Excellent usability, few or no issues\n\n        Analyze the response thoroughly against each principle category, then provide a single decimal number between 1.0 and 5.0 as your final score. Only return the numerical score.\n        "
/-- The `summary_prompt` f-string of `format_feedback_summary`. -/
def summaryPrompt (feedback : String) : String :=
  "\n        Analyze the following merchant feedback and extract key points for each category:\n        " ++ feedback ++ "\n        \n        IMPORTANT: Return ONLY a valid JSON object with NO additional text or formatting (no markdown, no ```json tags).\n        Follow this EXACT structure:\n        \x7b\n            \"Value Offering\": \x7b\n                \"summary\": \"Provide a detailed 2-3 line summary of how well the feature addresses business needs, including specific benefits and potential impact on operations.\",\n                \"quote\": \"Direct quote from merchant about value\"\n            \x7d,\n            \"Feature Usefulness\": \x7b\n                \"summary\": \"Provide a detailed 2-3 line summary of the feature\x27s practicality and benefits, including specific use cases and advantages.\",\n                \"quote\": \"Direct quote from merchant about usefulness\"\n            \x7d,\n            \"Ease of Use\": \x7b\n                \"summary\": \"Provide a detailed 2-3 line summary of the feature\x27s intuitiveness and simplicity, including specific aspects of the user experience.\",\n                \"quote\": \"Direct quote from merchant about ease of use\"\n            \x7d,\n            \"Discoverability\": \x7b\n                \"summary\": \"Provide a detailed 2-3 line summary of how easy features are to find and understand, including specific navigation and guidance aspects.\",\n                \"quote\": \"Direct quote from merchant about discoverability\"\n            \x7d,\n            \"Design Appeal\": \x7b\n                \"summary\": \"Provide a detailed 2-3 line summary of the visual and professional aspects, including specific design elements and aesthetics.\",\n                \"quote\": \"Direct quote from merchant about design\"\n            \x7d\n        \x7d\n        "
/-- The `context_prompt` f-string of `generate_context_keywords`. -/
def contextPrompt (text image_context : String) : String :=
  "\n        Analyze and extract key points from the following input:\n        \n        Text Description:\n        " ++ text ++ "\n        \n        " ++ image_context ++ "\n        \n        Return a concise list of keywords and a brief summary that would be efficient to retrieve data from RAG.\n        Focus on:\n        1. Main features and functionality\n        2. User experience aspects (including visual design if image provided)\n        3. Technical requirements\n        4. Business impact\n        "
/-- The `analysis_prompt` f-string of `analyze_image` (unreachable in practice). -/
def analysisPrompt (width height : Nat) (format mode : String) : String :=
  "\n            Analyze this design interface image and provide a detailed description focusing on:\n            1. UI Components and Layout\n            2. Visual Design Elements\n            3. User Interaction Points\n            4. Accessibility Features\n            5. Potential Usability Concerns\n            \n            Image Details:\n            - Dimensions: " ++ toString width ++ "x" ++ toString height ++ " pixels\n            - Format: " ++ format ++ "\n            - Color Mode: " ++ mode ++ "\n        "

/-! ## The external collaborators, as an explicit environment

`run_feature_test` and its helpers interact with the model client, the
vector store, the filesystem and `uuid4`. The environment fixes one
behaviour for each interaction of a run; exceptions raised by a
collaborator are `Except.error` values, and the embedding places
`try/except` boundaries exactly where the Python code does. -/

/-- Result of `ChromaDBManager.query` (a dict; only its `'documents'` entry
is consulted by the pipeline). `documents` is `none` when the key is absent
or maps to a non-list/falsy-`None` value; each item of the outer list is
either itself a list of strings or some non-list value. -/
inductive DocItem where
  | strs (docs : List String)
  | notList
deriving Repr

/-- The dict returned by `ChromaDBManager.query`. -/
structure ChromaResult where
  documents : Option (List DocItem)
deriving Repr

/-- Dimensions (`width`/`height`) and `mode`/`format` of a PIL image. -/
structure PyImage where
  width : Nat
  height : Nat
  mode : String
  fmt : String
deriving Repr

/-- One run's behaviour of all external collaborators. -/
structure Env where
  /-- `create_model_client(name)`: may raise (unknown prefix). -/
  createClient : String → Except PyErr Unit
  /-- `client.send_request(prompt)`: reply text, or a raised exception. -/
  send : String → Except PyErr String
  /-- `chroma_manager.query(text)`: `ChromaDBManager.query` has no
  `try/except`, so a store-level exception propagates to the caller. -/
  query : String → Except PyErr ChromaResult
  /-- Outcome of the `k`-th `chroma_manager.add_documents` call of the run
  (`ChromaDBManager.add_documents` logs and re-raises on failure). -/
  addDoc : Nat → Except PyErr Unit
  /-- The `k`-th `uuid.uuid4()` drawn during the run. -/
  uuid : Nat → String
  /-- `os.path.exists`. -/
  pathExists : String → Bool
  /-- Base64 of the PNG re-encoding of an image (dead code in
  `analyze_image`; kept abstract in the environment). -/
  b64 : PyImage → String
  /-- The module constant `MODEL_NAME` (read from config). -/
  modelName : String

/-! ## `analyze_image` -/

/-- The `try` block of `analyze_image`. Its first statement is
`img = img.resize((512, 512))`: the right-hand side reads the local `img`,
which is first assigned by this very statement, so Python raises
`UnboundLocalError` before anything else in the block runs. The remainder
of the block is embedded as the (unreachable) continuation. -/
def analyzeImageBody (env : Env) (_image_path : String) (model_name : String) :
    Except PyErr String := do
  let img0 ← (Except.error PyErr.unboundLocal : Except PyErr PyImage)
  let img : PyImage := ⟨512, 512, img0.mode, img0.fmt⟩
  let base64_image := env.b64 img
  let _ ← env.createClient model_name
  let analysis ← env.send (analysisPrompt img.width img.height img.fmt img.mode ++ base64_image)
  pure analysis

/-- Model of `analyze_image`: any exception in the body is caught and `""` returned. -/
def analyze_image (env : Env) (image_path : String) (model_name : String) : String :=
  match analyzeImageBody env image_path model_name with
  | .ok s => s
  | .error _ => ""

/-! ## `generate_context_keywords` -/

/-- The `try` block of `generate_context_keywords`. -/
def generateContextKeywordsBody (env : Env) (text : String) (image_path : Option String)
    (model_name : String) : Except PyErr String := do
  let _ ← env.createClient model_name
  let image_context : String :=
    match image_path with
    | some p =>
      -- `if image_path and os.path.exists(image_path)`
      if p ≠ "" ∧ env.pathExists p then
        "\nVisual Design Analysis:\n" ++ analyze_image env p model_name
      else ""
    | none => ""
  env.send (contextPrompt text image_context)

/-- Model of `generate_context_keywords`: on any exception, the original text is
returned (graceful degradation). -/
def generate_context_keywords (env : Env) (text : String) (image_path : Option String)
    (model_name : String) : String :=
  match generateContextKeywordsBody env text image_path model_name with
  | .ok r => r
  | .error _ => text

/-! ## Environment-level scoring and summary -/

/-- Model of `calculate_usability_score(response, model_name)` with its own internal
client creation and scoring call (both inside the function's `try`). -/
def calcUsabilityScoreEnv (env : Env) (response : String) (model_name : String) : ℚ :=
  calculate_usability_score
    ((env.createClient model_name).bind fun _ => env.send (scoringPrompt response))

/-- Model of `format_feedback_summary(feedback, model_name)`: client creation and the
structuring call are inside the outer `try` (`create_default_summary` on a
raise); a received reply is processed by `parseSummaryReply`. -/
def format_feedback_summary (env : Env) (feedback : String) (model_name : String) : JValue :=
  match (env.createClient model_name).bind fun _ => env.send (summaryPrompt feedback) with
  | .error _ => create_default_summary
  | .ok result => parseSummaryReply result

/-! ## `run_feature_test` -/

/-- The nested `usability_score` dict of one persona result. -/
structure UsabilityScore where
  score : ℚ
  rating : String
deriving Repr

/-- One entry of the `results` list built by the per-persona loop. -/
structure PersonaResult where
  persona : String
  usability_score : UsabilityScore
  feedback_summary : JValue
  raw_feedback : String
deriving Repr

/-- The metadata dict passed to `chroma_manager.add_documents`. -/
structure AddMeta where
  persona : String
  feature : String
  score : ℚ
  type : String
  original_id : String
deriving Repr

/-- One `chroma_manager.add_documents(...)` call (arguments as passed). -/
structure AddCall where
  documents : List String
  ids : List String
  metadatas : List AddMeta
deriving Repr

/-- The dict returned by `run_feature_test`. -/
structure TestReport where
  feature_name : String
  flow_type : String
  test_results : List PersonaResult
deriving Repr

/-- Lines 428-436: documents are taken from the query result only when
`chroma_results` and `chroma_results.get('documents')` are truthy, the
`documents` value is a non-empty list, and its first element is a list;
otherwise the document list is empty ("no documents found or unexpected
result structure"). -/
def retrievedDocs (cr : ChromaResult) : List String :=
  match cr.documents with
  | some (DocItem.strs l :: _) => l
  | _ => []

/-- Python `feature_text.split(":")` on the character level. -/
def pySplitList (c : Char) : List Char → List (List Char)
  | [] => [[]]
  | x :: r =>
    if x = c then [] :: pySplitList c r
    else
      match pySplitList c r with
      | h :: t => (x :: h) :: t
      | [] => [[x]]

/-- Model of `feature_text.split(":")[0] if ":" in feature_text else feature_text`.
Python `":" in s` is single-character substring containment. -/
def featureNameOf (feature_text : String) : String :=
  if feature_text.toList.any (fun x => x = ':') then
    ⟨(pySplitList ':' feature_text.toList).headD []⟩
  else feature_text

/-- Model of `flow_type.value if flow_type else "general"`. -/
def flowTypeStr : Option FlowType → String
  | some f => f.value
  | none => "general"

/-- The per-persona loop of `run_feature_test` (lines 449-505). Unknown ids
are skipped with a warning. For each known persona: render the prompt, get
feedback, score it, summarize it, append the result, then persist the raw
feedback with metadata; `add_documents` re-raises on store failure, and no
`try/except` surrounds the loop body, so such an exception aborts the loop
(and the accumulated `results` list is abandoned by the top-level handler).
The second component collects the successfully executed store writes, in
order; `k` counts them (one fresh `uuid4` each). -/
def runPersonaLoop (env : Env) (feature_text image_ctx context ux_principles model_name : String) :
    List String → Nat → Except PyErr (List PersonaResult) × List AddCall
  | [], _ => (.ok [], [])
  | persona_name :: rest, k =>
    match lookupPersona persona_name with
    | none => runPersonaLoop env feature_text image_ctx context ux_principles model_name rest k
    | some persona =>
      let query := renderTestQuery persona.name persona.description persona.characteristics
        feature_text image_ctx context ux_principles
      match env.send query with
      | .error e => (.error e, [])
      | .ok feedback =>
        let score := calcUsabilityScoreEnv env feedback model_name
        let summary := format_feedback_summary env feedback model_name
        let res : PersonaResult :=
          ⟨persona_name, ⟨score, get_usability_rating score⟩, summary, feedback⟩
        let feedback_id := env.uuid k
        let call : AddCall :=
          ⟨[feedback], [feedback_id], [⟨persona_name, feature_text, score, "feedback", feedback_id⟩]⟩
        match env.addDoc k with
        | .error e => (.error e, [])
        | .ok _ =>
          let r := runPersonaLoop env feature_text image_ctx context ux_principles model_name rest (k + 1)
          (r.1.map fun l => res :: l, call :: r.2)

/-- The Python local `image_context` of the per-persona loop:
`f"\nVisual Analysis:\n{analyze_image(image_path) if image_path else ''}"`
(`analyze_image` is called with its default `model_name=MODEL_NAME`, the
module constant; `None` and the empty string are falsy). -/
def imageCtxOf (env : Env) (image_path : Option String) : String :=
  "\nVisual Analysis:\n" ++
    (match image_path with
     | some p => if p ≠ "" then analyze_image env p env.modelName else ""
     | none => "")

/-- The Python local `ux_principles`: a bulleted list when a flow type is
supplied, else the empty string. -/
def uxPrinciplesOf (flow_type : Option FlowType) : String :=
  match flow_type with
  | some ft =>
    String.intercalate "\n"
      ((get_principles_for_flow ft).map fun p => "- " ++ p.name ++ ": " ++ p.description)
  | none => ""

/-- Model of `persona_names or ["internet_first_entrepreneur"]`: both `None` and the
empty list are falsy and select the default. -/
def personaNamesOf (persona_names : Option (List String)) : List String :=
  match persona_names with
  | some l => if l.isEmpty then ["internet_first_entrepreneur"] else l
  | none => ["internet_first_entrepreneur"]

/-- The `try` body of `run_feature_test` (everything before the top-level
`except`), plus the trace of performed store writes. -/
def runFeatureTestBody (env : Env) (feature_text : String) (flow_type : Option FlowType)
    (image_path : Option String) (persona_names : Option (List String)) (model_name : String) :
    Except PyErr TestReport × List AddCall :=
  -- `client = create_model_client(model_name)`
  match env.createClient model_name with
  | .error e => (.error e, [])
  | .ok _ =>
    -- `context_query = generate_context_keywords(...)`, then
    -- `chroma_results = chroma_manager.query(context_query)`
    match env.query (generate_context_keywords env feature_text image_path model_name) with
    | .error e => (.error e, [])
    | .ok chroma_results =>
      -- the loop receives the Python locals `image_context` (per persona,
      -- hoisted since `analyze_image` is pure here), the joined `context`,
      -- `ux_principles` and the effective persona-name list.
      match runPersonaLoop env feature_text (imageCtxOf env image_path)
          (String.intercalate "\n\n" (retrievedDocs chroma_results))
          (uxPrinciplesOf flow_type) model_name (personaNamesOf persona_names) 0 with
      | (Except.error e, tr) => (.error e, tr)
      | (Except.ok results, tr) =>
        (.ok ⟨featureNameOf feature_text, flowTypeStr flow_type, results⟩, tr)

/-- Model of `run_feature_test`: any exception escaping the body is caught at the top
level and converted into a report with empty `test_results` (the
`feature_name` and `flow_type` fields are computed by the same expressions
on both paths). -/
def run_feature_test (env : Env) (feature_text : String) (flow_type : Option FlowType)
    (image_path : Option String) (persona_names : Option (List String)) (model_name : String) :
    TestReport :=
  match (runFeatureTestBody env feature_text flow_type image_path persona_names model_name).1 with
  | .ok report => report
  | .error _ => ⟨featureNameOf feature_text, flowTypeStr flow_type, []⟩

/-- The store writes performed during a run (also those of a run whose
in-memory results were discarded by the top-level handler). -/
def runFeatureTestWrites (env : Env) (feature_text : String) (flow_type : Option FlowType)
    (image_path : Option String) (persona_names : Option (List String)) (model_name : String) :
    List AddCall :=
  (runFeatureTestBody env feature_text flow_type image_path persona_names model_name).2

/-! ## `model_clients/retry_logic.py` -/

/-- Parameters of `retry_with_exponential_backoff`. -/
structure RetryParams where
  max_retries : Nat
  initial_delay : ℚ
  max_delay : ℚ
  backoff_factor : ℚ
  jitter : ℚ
deriving Repr

/-- The decorator's default parameters (5, 2, 70, 2, 0.1). -/
def defaultRetryParams : RetryParams := ⟨5, 2, 70, 2, 1 / 10⟩

/-- Model of `"429" in error_str`. -/
def strContains429 (error_str : String) : Bool :=
  error_str.toList.tails.any fun t => "429".toList.isPrefixOf t

/-- Match `\d+ seconds` at the head of one `splitOn` fragment. -/
def matchRetryAfterTail (part : String) : Option Nat :=
  let cs := part.toList
  let ds := cs.takeWhile Char.isDigit
  if ds.isEmpty then none
  else if " seconds".toList.isPrefixOf (cs.dropWhile Char.isDigit) then some (digitsVal ds)
  else none

/-- Model of `re.search(r'retry after (\d+) seconds', error_str.lower())`: the first
occurrence of `retry after ` followed immediately by digits and ` seconds`. -/
def extractSuggestedWait (error_str : String) : Option Nat :=
  ((error_str.toLower.splitOn "retry after ").drop 1).findSome? matchRetryAfterTail

/-- The sleep computed for one retry: `wait_time` is the suggested wait from
the error text, defaulting to 60 seconds; the jitter amount is
`delay * jitter * u` with `u` drawn uniformly from `[-1, 1]`; and
`sleep_time = min(max(wait_time, delay + jitter_amount), max_delay)`. -/
def sleepOf (p : RetryParams) (delay : ℚ) (u : ℚ) (error_str : String) : ℚ :=
  let wait_time : ℚ := ((extractSuggestedWait error_str).getD 60 : Nat)
  let jitter_amount := delay * p.jitter * u
  min (max wait_time (delay + jitter_amount)) p.max_delay

/-- The `while True` loop of the wrapper. `calls k` is the outcome of the
`k`-th invocation of the wrapped function, `us k` the `k`-th
`random.uniform(-1, 1)` draw. `budget` is the remaining retry allowance
(`max_retries - retries`), so `budget = 0` is exactly the Python guard
`retries >= max_retries`. Returns the final outcome together with the list
of sleeps performed, in order. -/
def retryLoop {α : Type} (p : RetryParams) (calls : Nat → Except String α) (us : Nat → ℚ) :
    Nat → Nat → ℚ → Except String α × List ℚ
  | budget, k, delay =>
    match calls k with
    | .ok a => (.ok a, [])
    | .error e =>
      match budget with
      | 0 => (.error e, [])
      | b + 1 =>
        if strContains429 e = false then (.error e, [])
        else
          let st := sleepOf p delay (us k) e
          let r := retryLoop p calls us b (k + 1) (min (delay * p.backoff_factor) p.max_delay)
          (r.1, st :: r.2)

/-- A call wrapped by `retry_with_exponential_backoff(p)`: the loop starts
with `retries = 0` and `delay = initial_delay`. -/
def retryCall {α : Type} (p : RetryParams) (calls : Nat → Except String α) (us : Nat → ℚ) :
    Except String α × List ℚ :=
  retryLoop p calls us p.max_retries 0 p.initial_delay

/-- Iterated (`i`-fold) application of `delay = min(delay * backoff_factor, max_delay)`
starting from `d`. -/
def delayIter (p : RetryParams) : ℚ → Nat → ℚ
  | d, 0 => d
  | d, i + 1 => delayIter p (min (d * p.backoff_factor) p.max_delay) i

/-- The delay variable in force before the `(i+1)`-st retry. -/
def delaySched (p : RetryParams) (i : Nat) : ℚ :=
  delayIter p p.initial_delay i

/-! ## Concrete environments (for evaluating the pipeline at specific runs) -/

/-- A run in which every collaborator call succeeds. -/
def envOk : Env :=
  ⟨fun _ => .ok (), fun _ => .ok "ok", fun _ => .ok ⟨some [DocItem.strs ["docA", "docB"]]⟩,
   fun _ => .ok (), fun k => "id-" ++ toString k, fun _ => false, fun _ => "", "model-x"⟩

/-- A run in which only the vector-store write raises (store outage during
`add_documents`). -/
def envAddFail : Env :=
  ⟨fun _ => .ok (), fun _ => .ok "ok", fun _ => .ok ⟨some [DocItem.strs ["docA"]]⟩,
   fun _ => .error (.exc "store down"), fun k => "id-" ++ toString k,
   fun _ => false, fun _ => "", "model-x"⟩

/-- A run in which only the vector-store query raises. -/
def envQueryFail : Env :=
  ⟨fun _ => .ok (), fun _ => .ok "ok", fun _ => .error (.exc "connection refused"),
   fun _ => .ok (), fun k => "id-" ++ toString k, fun _ => false, fun _ => "", "model-x"⟩

/-- A run against an empty store: the query succeeds with the
empty-but-structured result shape. -/
def envEmptyStore : Env :=
  ⟨fun _ => .ok (), fun _ => .ok "ok", fun _ => .ok ⟨some [DocItem.strs []]⟩,
   fun _ => .ok (), fun k => "id-" ++ toString k, fun _ => false, fun _ => "", "model-x"⟩

/-- A wrapped call that hits a bare 429 once and then succeeds. -/
def calls429Once : Nat → Except String Nat :=
  fun k => if k = 0 then .error "HTTP 429 Too Many Requests" else .ok 42

/-- A wrapped call that twice hits a 429 carrying a suggested wait. -/
def calls429Suggested : Nat → Except String Nat :=
  fun k => if k < 2 then .error "Error 429: retry after 9 seconds" else .ok 7

/-- Spec-side description of `feature_name`: the substring of `feature_text`
before its first colon, the whole text when there is none (this definition
follows the spec's words, for comparison with `featureNameOf`, which is
translated from the code). -/
def specFeatureName (s : String) : String :=
  ⟨s.toList.takeWhile (fun c => c ≠ ':')⟩

/-! # Theorems -/

/-- C10: for every environment, image path and model name, `analyze_image`
returns the empty string — its body reads the local `img` before any
assignment to it, so every invocation raises `UnboundLocalError` inside the
`try` block and the handler returns `""`; the image-analysis block
contributed to prompts is therefore always empty. -/
theorem analyze_image_always_empty (env : Env) (image_path model_name : String) :
    analyze_image env image_path model_name = "" := rfl

/-- C3: for every outcome of the model call, `calculate_usability_score`
returns a score in `[1, 5]`: a parsable reply is clamped into the interval,
and an unparsable reply or internal failure yields the neutral default 3. -/
theorem usability_score_clamped (r : Except PyErr String) :
    1 ≤ calculate_usability_score r ∧ calculate_usability_score r ≤ 5 ∧
    (∀ e, r = .error e → calculate_usability_score r = 3) ∧
    (∀ t, r = .ok t → pyFloat (pyStrip t) = none → calculate_usability_score r = 3) ∧
    (∀ t q, r = .ok t → pyFloat (pyStrip t) = some q →
      calculate_usability_score r = max 1 (min 5 q)) := by
  refine ⟨?_, ?_, ?_, ?_, ?_⟩
  · cases r with
    | error e => norm_num [calculate_usability_score]
    | ok t =>
      cases h : pyFloat (pyStrip t) with
      | none => norm_num [calculate_usability_score, h]
      | some q =>
        simp only [calculate_usability_score, h]
        exact le_max_left 1 _
  · cases r with
    | error e => norm_num [calculate_usability_score]
    | ok t =>
      cases h : pyFloat (pyStrip t) with
      | none => norm_num [calculate_usability_score, h]
      | some q =>
        simp only [calculate_usability_score, h]
        exact max_le (by norm_num) (min_le_left _ _)
  · intro e he
    subst he
    rfl
  · intro t ht h
    subst ht
    simp [calculate_usability_score, h]
  · intro t q ht h
    subst ht
    simp [calculate_usability_score, h]

/-- Witness for C3 at concrete replies. -/
theorem usability_score_clamped_witness :
    calculate_usability_score (Except.ok "banana") = 3 ∧
    calculate_usability_score (Except.ok " 7.5 ") = max 1 (min 5 (15 / 2)) :=
  ⟨(usability_score_clamped (.ok "banana")).2.2.2.1 "banana" rfl
      (by with_unfolding_all rfl),
   (usability_score_clamped (.ok " 7.5 ")).2.2.2.2 " 7.5 " (15 / 2) rfl
      (by with_unfolding_all rfl)⟩

/-- C9: for every flow type, `get_principles_for_flow` is the concatenation
of that flow's list with the GENERAL, ETHICAL, VISUAL, PRICING, CONTENT,
GAMIFICATION and CART lists, without deduplication: its length is the sum
of the eight lengths (so for CHECKOUT the sum stated in the spec, and for
GENERAL the GENERAL list is counted twice). -/
theorem get_principles_for_flow_concat :
    (∀ ft, get_principles_for_flow ft =
      principlesDict ft ++ principlesGENERAL ++ principlesETHICAL ++ principlesVISUAL ++
      principlesPRICING ++ principlesCONTENT ++ principlesGAMIFICATION ++ principlesCART) ∧
    (get_principles_for_flow .CHECKOUT).length =
      principlesCHECKOUT.length + principlesGENERAL.length + principlesETHICAL.length +
      principlesVISUAL.length + principlesPRICING.length + principlesCONTENT.length +
      principlesGAMIFICATION.length + principlesCART.length ∧
    (get_principles_for_flow .GENERAL).length =
      2 * principlesGENERAL.length + principlesETHICAL.length +
      principlesVISUAL.length + principlesPRICING.length + principlesCONTENT.length +
      principlesGAMIFICATION.length + principlesCART.length := by
  refine ⟨fun ft => rfl, ?_, ?_⟩
  · simp only [get_principles_for_flow, principlesDict, List.length_append]
    try omega
  · simp only [get_principles_for_flow, principlesDict, List.length_append]
    try omega

/-- C4, counterexample: the code maps 4.49 to "Very Good" (second rule,
`score >= 4.0`), not to "Good" as the spec's example states. -/
theorem rating_449_counterexample :
    get_usability_rating 4.49 = "Very Good" ∧ get_usability_rating 4.49 ≠ "Good" := by
  have h : get_usability_rating 4.49 = "Very Good" := by norm_num [get_usability_rating]
  exact ⟨h, by rw [h]; decide⟩

/-- C4, amended: `get_usability_rating` is the deterministic monotonic step
function given by the first-matching-rule-top-down table (≥ 4.5 Excellent,
≥ 4.0 Very Good, ≥ 3.5 Good, ≥ 3.0 Fair, ≥ 2.5 Poor, else Very Poor); in
particular 4.5 maps to "Excellent", 4.49 maps to "Very Good" (not "Good"),
and 1.0 maps to "Very Poor". -/
theorem rating_step_function :
    (∀ s : ℚ, get_usability_rating s = specFirstMatch s) ∧
    get_usability_rating 4.5 = "Excellent" ∧
    get_usability_rating 4.49 = "Very Good" ∧
    get_usability_rating 1 = "Very Poor" ∧
    ∀ s t : ℚ, s ≤ t →
      ratingRank (get_usability_rating s) ≤ ratingRank (get_usability_rating t) := by
  refine ⟨fun s => ?_, by norm_num [get_usability_rating],
    by norm_num [get_usability_rating], by norm_num [get_usability_rating],
    fun s t hst => ?_⟩
  · unfold get_usability_rating specFirstMatch specRatingTable
    simp only [List.find?]
    split_ifs <;> rfl
  · unfold get_usability_rating
    split_ifs <;> first | decide | linarith

/-- Witness for C4 at concrete scores. -/
theorem rating_step_function_witness :
    ratingRank (get_usability_rating 3) ≤ ratingRank (get_usability_rating 4) :=
  rating_step_function.2.2.2.2 3 4 (by norm_num)

/-- C2, counterexample: on completely non-JSON model output the summary
falls back to `create_default_summary`, whose keys are the
underscore-spelled `"Value_Offering"`, ..., not the five space-separated
category names the claim states; and a reply that parses as JSON is
returned as parsed without any key repair — `"3"` yields the JSON number 3,
which is not a mapping at all. -/
theorem summary_keys_counterexample :
    parseSummaryReply "completely non-JSON text" = create_default_summary ∧
    objKeys create_default_summary =
      ["Value_Offering", "Feature_Usefulness", "Ease_of_Use", "Discoverability",
       "Design_Appeal"] ∧
    objKeys create_default_summary ≠
      ["Value Offering", "Feature Usefulness", "Ease of Use", "Discoverability",
       "Design Appeal"] ∧
    parseSummaryReply "3" = JValue.num 3 := by
  refine ⟨by with_unfolding_all rfl, rfl, by decide, by with_unfolding_all rfl⟩

/-- C2, amended: `format_feedback_summary` is total and never raises, but
does not enforce the five space-separated keys: a reply that parses as
JSON (after fence stripping or brace extraction) is returned as parsed,
whatever its keys or type; only when every parse attempt fails does it
return the default summary, whose five keys are the underscore-spelled
`"Value_Offering"`, `"Feature_Usefulness"`, `"Ease_of_Use"`,
`"Discoverability"`, `"Design_Appeal"` with placeholder content. -/
theorem summary_default_shape (s : String)
    (h1 : json_loads (stripFence s) = none)
    (h2 : ∀ sub, extractBraceSubstring (stripFence s) = some sub →
      json_loads ((sub.replace "\n" " ").replace "\r" "") = none) :
    parseSummaryReply s = create_default_summary ∧
    objKeys (parseSummaryReply s) =
      ["Value_Offering", "Feature_Usefulness", "Ease_of_Use", "Discoverability",
       "Design_Appeal"] := by
  have hmain : parseSummaryReply s = create_default_summary := by
    unfold parseSummaryReply
    simp only [h1]
    cases hx : extractBraceSubstring (stripFence s) with
    | none => rfl
    | some sub => simp only [hx, h2 sub hx]
  exact ⟨hmain, by rw [hmain]; rfl⟩

/-- Witness for C2 at a concrete unparsable reply. -/
theorem summary_default_shape_witness :
    parseSummaryReply "no json here at all" = create_default_summary ∧
    objKeys (parseSummaryReply "no json here at all") =
      ["Value_Offering", "Feature_Usefulness", "Ease_of_Use", "Discoverability",
       "Design_Appeal"] :=
  summary_default_shape "no json here at all" (by with_unfolding_all rfl)
    (fun sub hsub => by
      rw [show extractBraceSubstring (stripFence "no json here at all") = none by
        with_unfolding_all rfl] at hsub
      cases hsub)

/-- C5, counterexample: with default parameters and a 429 error carrying no
suggested wait time, the sleep before the first retry is 60 seconds (the
hard-coded `wait_time` default, which `max` lets dominate the jittered
delay), not approximately `initial_delay = 2` seconds as the claim states
(the jittered schedule value is at most `2 + 2·0.1 < 60`). -/
theorem retry_first_sleep_counterexample :
    (retryCall defaultRetryParams calls429Once (fun _ => 0)).2 = [60] ∧
    extractSuggestedWait "HTTP 429 Too Many Requests" = none ∧
    ((60 : ℚ) ≠ 2) ∧ ¬((60 : ℚ) ≤ 2 + 2 * (1 / 10)) := by
  refine ⟨by with_unfolding_all rfl, by with_unfolding_all rfl, by norm_num, by norm_num⟩

/-- Every recorded sleep of `retryLoop` satisfies the closed-form schedule:
the `i`-th sleep (counting from the loop entry at delay `d`) is
`sleepOf` of the `i`-times-stepped delay, the `i`-th jitter draw and the
`i`-th error. -/
theorem retryLoop_sleep_spec {α : Type} (p : RetryParams) (calls : Nat → Except String α)
    (us : Nat → ℚ) :
    ∀ (i budget k : Nat) (d : ℚ) (s : ℚ),
      ((retryLoop p calls us budget k d).2).get? i = some s →
      ∃ e, calls (k + i) = .error e ∧ s = sleepOf p (delayIter p d i) (us (k + i)) e := by
  intro i
  induction i with
  | zero =>
    intro budget k d s h
    rw [retryLoop] at h
    cases hc : calls k with
    | ok a => rw [hc] at h; simp at h
    | error e =>
      rw [hc] at h
      cases budget with
      | zero => simp at h
      | succ b =>
        cases hb : strContains429 e with
        | false => simp [hb] at h
        | true =>
          simp only [hb] at h
          simp at h
          exact ⟨e, by simpa using hc, by simpa [delayIter] using h.symm⟩
  | succ i ih =>
    intro budget k d s h
    rw [retryLoop] at h
    cases hc : calls k with
    | ok a => rw [hc] at h; simp at h
    | error e =>
      rw [hc] at h
      cases budget with
      | zero => simp at h
      | succ b =>
        cases hb : strContains429 e with
        | false => simp [hb] at h
        | true =>
          simp only [hb] at h
          simp only [List.get?] at h
          have h' := ih b (k + 1) (min (d * p.backoff_factor) p.max_delay) s (by simpa using h)
          obtain ⟨e', he1, he2⟩ := h'
          refine ⟨e', ?_, ?_⟩
          · rw [show k + (i + 1) = k + 1 + i by omega]
            exact he1
          · rw [show k + (i + 1) = k + 1 + i by omega]
            simpa [delayIter] using he2

/-- C5, amended: for every sequence of 429 errors, the sleep before the
`(i+1)`-st retry is `min(max(wait_time, delay + delay·jitter·u), max_delay)`,
where the delay follows the exponential schedule (`initial_delay`, stepped
by `delay = min(delay · backoff_factor, max_delay)` per retry), `u` is that
retry's uniform jitter draw, and `wait_time` is the wait suggested in the
error text, defaulting to 60 seconds when absent — so the suggested-or-
default wait takes precedence only when it exceeds the jittered delay, and
with defaults the first sleep is 60 seconds when no wait is suggested. -/
theorem retry_sleep_schedule {α : Type} (p : RetryParams) (calls : Nat → Except String α)
    (us : Nat → ℚ) (i : Nat) (s : ℚ)
    (h : ((retryCall p calls us).2).get? i = some s) :
    ∃ e, calls i = .error e ∧ s = sleepOf p (delaySched p i) (us i) e := by
  have := retryLoop_sleep_spec p calls us i p.max_retries 0 p.initial_delay s h
  simpa [delaySched] using this

/-- Witness for C5: two 429s suggesting a 9-second wait; the first sleep is
9 seconds (the suggested value beats the jittered 2.2-second delay). -/
theorem retry_sleep_schedule_witness :
    ∃ e, calls429Suggested 0 = .error e ∧
      (9 : ℚ) = sleepOf defaultRetryParams (delaySched defaultRetryParams 0)
        ((fun _ => (1 : ℚ)) 0) e :=
  retry_sleep_schedule defaultRetryParams calls429Suggested (fun _ => 1) 0 9
    (by with_unfolding_all rfl)

/-- Python `split(":")` never returns an empty list of parts. -/
theorem pySplitList_ne_nil (c : Char) (l : List Char) : pySplitList c l ≠ [] := by
  cases l with
  | nil => simp [pySplitList]
  | cons x r =>
    simp only [pySplitList]
    split_ifs
    · simp
    · cases pySplitList c r <;> simp

/-- The first part of `split(c)` is the run of characters before the first
occurrence of `c`. -/
theorem pySplitList_headD (c : Char) (l : List Char) :
    (pySplitList c l).headD [] = l.takeWhile (fun x => x ≠ c) := by
  induction l with
  | nil => rfl
  | cons x r ih =>
    by_cases hx : x = c
    · subst hx
      simp [pySplitList, List.takeWhile_cons]
    · simp only [pySplitList, if_neg hx]
      cases hrec : pySplitList c r with
      | nil => exact absurd hrec (pySplitList_ne_nil c r)
      | cons h t =>
        rw [hrec] at ih
        simp only [List.headD_cons] at ih
        simp [List.takeWhile_cons, hx, ih]

/-- The code's `feature_name` computation agrees with the spec's wording
("the substring of `feature_text` before its first colon, else the whole
text"). -/
theorem featureNameOf_eq_spec (s : String) : featureNameOf s = specFeatureName s := by
  unfold featureNameOf specFeatureName
  by_cases h : (s.toList.any fun x => x = ':') = true
  · rw [if_pos h]
    exact congrArg String.mk (pySplitList_headD ':' s.toList)
  · rw [if_neg h]
    have hnotmem : ':' ∉ s.data := by
      intro hmem
      exact h (List.any_eq_true.mpr ⟨':', hmem, by simp⟩)
    have htw : s.toList.takeWhile (fun c => c ≠ ':') = s.toList := by
      rw [List.takeWhile_eq_self_iff]
      intro x hx
      simpa using fun hxe : x = ':' => hnotmem (hxe ▸ hx)
    rw [htw]
    rfl

set_option maxRecDepth 8192 in
/-- The body either raises or returns a report whose `feature_name` and
`flow_type` fields come from the same expressions as on the failure path. -/
theorem runFeatureTestBody_shape (env : Env) (ft : String) (fl : Option FlowType)
    (img : Option String) (pn : Option (List String)) (mn : String) :
    (∃ e, (runFeatureTestBody env ft fl img pn mn).1 = .error e) ∨
    (∃ rs, (runFeatureTestBody env ft fl img pn mn).1 =
      .ok ⟨featureNameOf ft, flowTypeStr fl, rs⟩) := by
  unfold runFeatureTestBody
  repeat' split
  all_goals first
    | exact .inl ⟨_, rfl⟩
    | exact .inr ⟨_, rfl⟩

/-- On the success path, the report's `feature_name` and `flow_type` come
from the same expressions as on the failure path. -/
theorem runFeatureTestBody_fields (env : Env) (ft : String) (fl : Option FlowType)
    (img : Option String) (pn : Option (List String)) (mn : String) (rep : TestReport)
    (h : (runFeatureTestBody env ft fl img pn mn).1 = .ok rep) :
    rep.feature_name = featureNameOf ft ∧ rep.flow_type = flowTypeStr fl := by
  rcases runFeatureTestBody_shape env ft fl img pn mn with ⟨e, he⟩ | ⟨rs, hr⟩
  · rw [he] at h
    exact Except.noConfusion h
  · rw [hr] at h
    injection h with h
    subst h
    exact ⟨rfl, rfl⟩

/-- C7: `run_feature_test` is modelled as a total function — every
exception escaping the pipeline body is caught at the top level and turned
into a report with empty `test_results` — and on both the success and the
failure path the report's `feature_name` is the substring of `feature_text`
before its first colon (the whole text when none) and its `flow_type` is
the supplied flow type's value, or "general" when none is supplied. -/
theorem run_feature_test_total_shape (env : Env) (ft : String) (fl : Option FlowType)
    (img : Option String) (pn : Option (List String)) (mn : String) :
    (run_feature_test env ft fl img pn mn).feature_name = specFeatureName ft ∧
    (run_feature_test env ft fl img pn mn).flow_type = flowTypeStr fl ∧
    ∀ e, (runFeatureTestBody env ft fl img pn mn).1 = .error e →
      (run_feature_test env ft fl img pn mn).test_results = [] := by
  have hfn := featureNameOf_eq_spec ft
  unfold run_feature_test
  cases hb : (runFeatureTestBody env ft fl img pn mn).1 with
  | error e => exact ⟨hfn, rfl, fun _ _ => rfl⟩
  | ok rep =>
    obtain ⟨h1, h2⟩ := runFeatureTestBody_fields env ft fl img pn mn rep hb
    refine ⟨h1.trans hfn, h2, fun e he => ?_⟩
    exact Except.noConfusion he

/-- Witness for C7: a store-level query failure yields the degraded report
with the colon-derived feature name, default flow type and no results. -/
theorem run_feature_test_total_shape_witness :
    (run_feature_test envQueryFail "a:b" none none
        (some ["internet_first_entrepreneur"]) "m").test_results = [] ∧
    (run_feature_test envQueryFail "a:b" none none
        (some ["internet_first_entrepreneur"]) "m").feature_name = specFeatureName "a:b" ∧
    (run_feature_test envQueryFail "a:b" none none
        (some ["internet_first_entrepreneur"]) "m").flow_type = flowTypeStr none :=
  ⟨(run_feature_test_total_shape envQueryFail "a:b" none none
      (some ["internet_first_entrepreneur"]) "m").2.2 (.exc "connection refused")
      (by with_unfolding_all rfl),
   (run_feature_test_total_shape envQueryFail "a:b" none none
      (some ["internet_first_entrepreneur"]) "m").1,
   (run_feature_test_total_shape envQueryFail "a:b" none none
      (some ["internet_first_entrepreneur"]) "m").2.1⟩

/-- When every send succeeds and every store write succeeds, the loop
returns one result per known persona id, in caller order, and performs one
store write per result, carrying that result's raw feedback. -/
theorem runPersonaLoop_ok (env : Env)
    (hsend : ∀ s, exOk (env.send s)) (hadd : ∀ k, env.addDoc k = .ok ())
    (ft ic cx ux mn : String) :
    ∀ (names : List String) (k : Nat),
      ∃ rs tr, runPersonaLoop env ft ic cx ux mn names k = (.ok rs, tr) ∧
        rs.map (fun r => r.persona) = names.filter (fun n => (lookupPersona n).isSome) ∧
        tr.map (fun c => c.documents) = rs.map (fun r => [r.raw_feedback]) := by
  intro names
  induction names with
  | nil => exact fun k => ⟨[], [], rfl, rfl, rfl⟩
  | cons n rest ih =>
    intro k
    cases hl : lookupPersona n with
    | none =>
      obtain ⟨rs, tr, h1, h2, h3⟩ := ih k
      refine ⟨rs, tr, ?_, ?_, h3⟩
      · simp only [runPersonaLoop, hl]
        exact h1
      · simp [List.filter_cons, hl, h2]
    | some p =>
      obtain ⟨reply, hr⟩ :=
        hsend (renderTestQuery p.name p.description p.characteristics ft ic cx ux)
      obtain ⟨rs, tr, h1, h2, h3⟩ := ih (k + 1)
      refine ⟨⟨n, ⟨calcUsabilityScoreEnv env reply mn,
            get_usability_rating (calcUsabilityScoreEnv env reply mn)⟩,
          format_feedback_summary env reply mn, reply⟩ :: rs,
        ⟨[reply], [env.uuid k],
          [⟨n, ft, calcUsabilityScoreEnv env reply mn, "feedback", env.uuid k⟩]⟩ :: tr,
        ?_, ?_, ?_⟩
      · simp only [runPersonaLoop, hl, hr, hadd k, h1, Except.map]
      · simp [List.filter_cons, hl, h2]
      · simp [h3]

/-- When sends succeed but every store write raises, the loop aborts at the
first known persona: the error propagates and no write is recorded. -/
theorem runPersonaLoop_addfail (env : Env)
    (hsend : ∀ s, exOk (env.send s)) (hadd : ∀ k, ∃ e, env.addDoc k = .error e)
    (ft ic cx ux mn : String) :
    ∀ (names : List String) (k : Nat),
      names.filter (fun n => (lookupPersona n).isSome) ≠ [] →
      ∃ e, runPersonaLoop env ft ic cx ux mn names k = (.error e, []) := by
  intro names
  induction names with
  | nil => intro k hne; simp at hne
  | cons n rest ih =>
    intro k hne
    cases hl : lookupPersona n with
    | none =>
      have hne' : rest.filter (fun n => (lookupPersona n).isSome) ≠ [] := by
        simpa [List.filter_cons, hl] using hne
      obtain ⟨e, he⟩ := ih k hne'
      refine ⟨e, ?_⟩
      simp only [runPersonaLoop, hl]
      exact he
    | some p =>
      obtain ⟨reply, hr⟩ :=
        hsend (renderTestQuery p.name p.description p.characteristics ft ic cx ux)
      obtain ⟨e, he⟩ := hadd k
      refine ⟨e, ?_⟩
      simp only [runPersonaLoop, hl, hr, he]

/-- Success-path behaviour of a whole run: with every collaborator call
succeeding, the report lists exactly the known persona ids of the
caller-supplied list, in order, and the store received one write per
result carrying that result's raw feedback, in order. -/
theorem run_feature_test_ok_general (env : Env) (ft : String) (fl : Option FlowType)
    (img : Option String) (mn : String) (names : List String)
    (hc : ∀ m, env.createClient m = .ok ()) (hs : ∀ s, exOk (env.send s))
    (hq : ∀ q, exOk (env.query q)) (ha : ∀ k, env.addDoc k = .ok ())
    (hne : names ≠ []) :
    (run_feature_test env ft fl img (some names) mn).test_results.map (fun r => r.persona) =
      names.filter (fun n => (lookupPersona n).isSome) ∧
    (runFeatureTestWrites env ft fl img (some names) mn).map (fun c => c.documents) =
      (run_feature_test env ft fl img (some names) mn).test_results.map
        (fun r => [r.raw_feedback]) := by
  obtain ⟨cr, hcr⟩ := hq (generate_context_keywords env ft img mn)
  have hne' : names.isEmpty = false := by
    cases names with
    | nil => exact absurd rfl hne
    | cons a l => rfl
  obtain ⟨rs, tr, hloop, hmap, htr⟩ :=
    runPersonaLoop_ok env hs ha ft (imageCtxOf env img)
      (String.intercalate "\n\n" (retrievedDocs cr)) (uxPrinciplesOf fl) mn names 0
  have hpn : personaNamesOf (some names) = names := by
    simp [personaNamesOf, hne']
  unfold run_feature_test runFeatureTestWrites runFeatureTestBody
  simp only [hc mn, hcr, hpn, hloop]
  exact ⟨hmap, htr⟩

/-- C8, counterexample: an empty caller-supplied `persona_names` list is
falsy in `persona_names or [...]`, so the run falls back to the default
persona and returns one result — not the zero entries the claim's
"exactly one entry per id present in the registry" requires for `[]`. -/
theorem empty_persona_list_counterexample :
    (run_feature_test envOk "f" none none (some []) "m").test_results.map
        (fun r => r.persona) = ["internet_first_entrepreneur"] ∧
    (run_feature_test envOk "f" none none (some []) "m").test_results.length = 1 ∧
    (([] : List String).filter (fun n => (lookupPersona n).isSome)).length = 0 :=
  ⟨by with_unfolding_all rfl, by with_unfolding_all rfl, rfl⟩

/-- C8, amended: for every NON-EMPTY caller-supplied `persona_names` list
(the empty list is falsy and selects the default persona instead),
`run_feature_test` processes personas in caller order and the returned
`test_results` holds exactly one entry per occurrence of an id present in
the persona registry, in that order; ids absent from the registry are
skipped without raising, so a non-empty list of only unknown ids yields
zero results and no exception. -/
theorem persona_order_filter (env : Env) (ft : String) (fl : Option FlowType)
    (img : Option String) (mn : String) (names : List String)
    (hc : ∀ m, env.createClient m = .ok ()) (hs : ∀ s, exOk (env.send s))
    (hq : ∀ q, exOk (env.query q)) (ha : ∀ k, env.addDoc k = .ok ())
    (hne : names ≠ []) :
    (run_feature_test env ft fl img (some names) mn).test_results.map (fun r => r.persona) =
      names.filter (fun n => (lookupPersona n).isSome) :=
  (run_feature_test_ok_general env ft fl img mn names hc hs hq ha hne).1

/-- Witness for C8: a list with an unknown and a known id yields exactly
the known id's result, in order. -/
theorem persona_order_filter_witness :
    (run_feature_test envOk "f" none none
        (some ["does_not_exist", "internet_first_entrepreneur"]) "m").test_results.map
      (fun r => r.persona) =
      List.filter (fun n => (lookupPersona n).isSome)
        ["does_not_exist", "internet_first_entrepreneur"] ∧
    List.filter (fun n => (lookupPersona n).isSome)
        ["does_not_exist", "internet_first_entrepreneur"] =
      ["internet_first_entrepreneur"] :=
  ⟨persona_order_filter envOk "f" none none "m"
      ["does_not_exist", "internet_first_entrepreneur"] (fun _ => rfl)
      (fun _ => ⟨"ok", rfl⟩) (fun _ => ⟨⟨some [DocItem.strs ["docA", "docB"]]⟩, rfl⟩)
      (fun _ => rfl) (List.cons_ne_nil _ _),
   by with_unfolding_all rfl⟩

/-- C1, counterexample: with a store whose `add_documents` raises, a run
over both known personas returns NO results at all — the write failure
after the first persona aborts the loop and the top-level handler discards
the sibling's processing — whereas the identical run with a healthy store
returns both. -/
theorem add_failure_aborts_counterexample :
    (run_feature_test envAddFail "f" none none
        (some ["internet_first_entrepreneur", "hybrid_emerging_business"]) "m").test_results
      = [] ∧
    (run_feature_test envOk "f" none none
        (some ["internet_first_entrepreneur", "hybrid_emerging_business"]) "m").test_results.map
      (fun r => r.persona) = ["internet_first_entrepreneur", "hybrid_emerging_business"] :=
  ⟨by with_unfolding_all rfl, by with_unfolding_all rfl⟩

/-- C1, amended: a failure of the vector-store write while persisting one
persona's feedback aborts the whole run — the exception propagates to the
top-level handler and the returned report has EMPTY `test_results`, so the
remaining personas are not processed; on the success path each persona's
raw feedback is persisted by its own store write, in persona order, before
the loop proceeds to the next persona. -/
theorem add_failure_policy (env : Env) (ft : String) (fl : Option FlowType)
    (img : Option String) (mn : String) (names : List String)
    (hc : ∀ m, env.createClient m = .ok ()) (hs : ∀ s, exOk (env.send s))
    (hq : ∀ q, exOk (env.query q)) :
    ((∀ k, ∃ e, env.addDoc k = .error e) →
      names.filter (fun n => (lookupPersona n).isSome) ≠ [] →
      (run_feature_test env ft fl img (some names) mn).test_results = []) ∧
    ((∀ k, env.addDoc k = .ok ()) → names ≠ [] →
      (runFeatureTestWrites env ft fl img (some names) mn).map (fun c => c.documents) =
        (run_feature_test env ft fl img (some names) mn).test_results.map
          (fun r => [r.raw_feedback])) := by
  constructor
  · intro hadd hfilter
    obtain ⟨cr, hcr⟩ := hq (generate_context_keywords env ft img mn)
    have hne : names ≠ [] := by
      intro h
      rw [h] at hfilter
      simp at hfilter
    have hne' : names.isEmpty = false := by
      cases names with
      | nil => exact absurd rfl hne
      | cons a l => rfl
    have hpn : personaNamesOf (some names) = names := by simp [personaNamesOf, hne']
    obtain ⟨e, hloop⟩ :=
      runPersonaLoop_addfail env hs hadd ft (imageCtxOf env img)
        (String.intercalate "\n\n" (retrievedDocs cr)) (uxPrinciplesOf fl) mn names 0 hfilter
    unfold run_feature_test runFeatureTestBody
    simp only [hc mn, hcr, hpn, hloop]
  · intro hadd hne
    exact (run_feature_test_ok_general env ft fl img mn names hc hs hq hadd hne).2

/-- Witness for C1: on a healthy store, the run's writes carry exactly the
result sequence's raw feedback, in order. -/
theorem add_failure_policy_witness :
    (runFeatureTestWrites envOk "f" none none
        (some ["internet_first_entrepreneur"]) "m").map (fun c => c.documents) =
      (run_feature_test envOk "f" none none
        (some ["internet_first_entrepreneur"]) "m").test_results.map
        (fun r => [r.raw_feedback]) :=
  (add_failure_policy envOk "f" none none "m" ["internet_first_entrepreneur"]
      (fun _ => rfl) (fun _ => ⟨"ok", rfl⟩)
      (fun _ => ⟨⟨some [DocItem.strs ["docA", "docB"]]⟩, rfl⟩)).2
    (fun _ => rfl) (List.cons_ne_nil _ _)

/-- C6, counterexample: a store-level exception from `query` is NOT
converged to an empty retrieved-context string — `ChromaDBManager.query`
has no `try/except` and `run_feature_test` only catches at the top level,
so the run with a known persona produces no persona feedback at all. -/
theorem query_exception_counterexample :
    (run_feature_test envQueryFail "f" none none
        (some ["internet_first_entrepreneur"]) "m").test_results = [] ∧
    (lookupPersona "internet_first_entrepreneur").isSome = true :=
  ⟨by with_unfolding_all rfl, by with_unfolding_all rfl⟩

/-- C6, amended: the retrieval step normalizes the two structured query
outcomes — a populated nested result yields its first document list, the
empty-but-structured result (and any unexpected shape) yields the empty
document list and hence an empty joined context — and with an empty store
the run still produces persona feedback for every known persona id; a
store-level exception, however, is not converged at the retrieval step: it
escapes to the top-level handler and the report has empty `test_results`. -/
theorem context_retrieval_policy (env : Env) (ft : String) (fl : Option FlowType)
    (img : Option String) (mn : String) (names : List String)
    (hc : ∀ m, env.createClient m = .ok ()) (hs : ∀ s, exOk (env.send s))
    (ha : ∀ k, env.addDoc k = .ok ()) (hne : names ≠ []) :
    ((∀ q, env.query q = .ok ⟨some [DocItem.strs []]⟩) →
      (run_feature_test env ft fl img (some names) mn).test_results.map (fun r => r.persona)
        = names.filter (fun n => (lookupPersona n).isSome)) ∧
    (∀ e, (∀ q, env.query q = .error e) →
      (run_feature_test env ft fl img (some names) mn).test_results = []) ∧
    String.intercalate "\n\n" (retrievedDocs ⟨some [DocItem.strs []]⟩) = "" ∧
    (∀ docs rest, retrievedDocs ⟨some (DocItem.strs docs :: rest)⟩ = docs) ∧
    retrievedDocs ⟨none⟩ = [] := by
  refine ⟨?_, ?_, by with_unfolding_all rfl, fun docs rest => rfl, rfl⟩
  · intro hq
    exact (run_feature_test_ok_general env ft fl img mn names hc hs
      (fun q => ⟨_, hq q⟩) ha hne).1
  · intro e hq
    unfold run_feature_test runFeatureTestBody
    simp only [hc mn, hq]

/-- Witness for C6: against an empty store, the known persona still gets a
feedback result. -/
theorem context_retrieval_policy_witness :
    (run_feature_test envEmptyStore "f" none none
        (some ["internet_first_entrepreneur"]) "m").test_results.map (fun r => r.persona) =
      List.filter (fun n => (lookupPersona n).isSome) ["internet_first_entrepreneur"] :=
  (context_retrieval_policy envEmptyStore "f" none none "m" ["internet_first_entrepreneur"]
      (fun _ => rfl) (fun _ => ⟨"ok", rfl⟩) (fun _ => rfl) (List.cons_ne_nil _ _)).1
    (fun _ => rfl)

end MerchantSuite
